import Mathlib

/-!
Verification of `gemini_server.py`: a FastAPI relay that forwards chat
requests to the Gemini generative-language provider and normalizes every
outcome into a uniform JSON shape.

The embedding models the three handlers (`chat_endpoint`, `health_check`,
`test_endpoint`) as pure functions of the ambient configuration (whether
`GEMINI_API_KEY` is set), the parsed request, and the provider's behaviour
(modelled as an outcome: a response value, or a raised exception with its
string form).  Python exception flow is made explicit with `Except`:
`HTTPException` is an `Exception` subclass, so the blanket
`except Exception` handlers in the source catch it like any other error.
-/

namespace GeminiServer

/-- `MODEL_NAME = "gemini-2.5-flash"` (line 40 of the source). -/
def MODEL_NAME : String := "gemini-2.5-flash"

/-- One content part of a provider candidate; `part.text` is its text. -/
structure Part where
  text : String
  deriving DecidableEq

/-- A candidate's content payload: a (possibly empty, hence Python-falsy)
list of parts. -/
structure Content where
  parts : List Part
  deriving DecidableEq

/-- One provider candidate: its content (`none` models a missing / falsy
`content` attribute) and its integer `finish_reason` code (2 is the
safety sentinel the source compares against). -/
structure Candidate where
  content : Option Content
  finish_reason : Nat
  deriving DecidableEq

/-- The value returned by `model.generate_content`: a list of candidates
(empty list is Python-falsy, the `not response.candidates` check). -/
structure ProviderResponse where
  candidates : List Candidate
  deriving DecidableEq

/-- The behaviour of the provider for one call: either it returns a
response, or the call (model construction or `generate_content`) raises an
exception whose `str(...)` form is `msg`. -/
inductive ProviderOutcome where
  | ok (resp : ProviderResponse)
  | exn (msg : String)
  deriving DecidableEq

/-- A Python exception as the handlers see it: FastAPI's `HTTPException`
(with status code and detail), or any other exception carrying its string
form.  Both are subclasses of `Exception`, so `except Exception` catches
both. -/
inductive PyExc where
  | http (status : Nat) (detail : String)
  | other (msg : String)
  deriving DecidableEq

/-- `str(e)` for a caught exception.  Starlette's `HTTPException.__str__`
renders `"{status_code}: {detail}"`. -/
def PyExc.str : PyExc → String
  | .http s d => toString s ++ ": " ++ d
  | .other m => m

/-- The outcome of `await request.json()` followed by
`data.get("message", "")`: either a message string (a body without the
`message` key yields `""`), or the parse itself raised an exception with
string form `msg`. -/
inductive RequestBody where
  | ok (message : String)
  | malformed (msg : String)
  deriving DecidableEq

/-- The guard `not user_input.strip()` (line 74): true iff the message is
empty or consists only of whitespace, i.e. stripping whitespace from both
ends leaves nothing. -/
def is_blank (message : String) : Bool :=
  message.data.all Char.isWhitespace

/-- The JSON body every `/chat` return dict produces: `response` and
`model` are present on every path; `filtered` only on the provider-success
path; `error` only on the two exception-catch paths. -/
structure ChatBody where
  response : String
  model : String
  filtered : Option Bool
  error : Option String
  deriving DecidableEq

/-- The observable result of one `/chat` invocation: HTTP status, JSON
body, and whether execution reached the provider (model construction /
`generate_content`). -/
structure ChatResult where
  status : Nat
  body : ChatBody
  providerInvoked : Bool
  deriving DecidableEq

/-- Line 104: the apology substituted when the candidate has no usable
text parts. -/
def safety_apology : String :=
  "I'm unable to provide a response to that request due to content safety policies."

/-- Lines 123-127: the apology returned by the inner `except Exception as
model_error` handler. -/
def inner_apology : String :=
  "I'm sorry, but I encountered an issue processing your request. This may be due to content safety policies or technical limitations."

/-- Lines 132-136: the apology returned by the outer `except Exception as
e` handler. -/
def outer_apology : String :=
  "I apologize, but I'm having technical difficulties processing your request. Please try again with a different query."

/-- Line 178: the fallback text of `/test` when the stub reply has no
parts. -/
def test_fallback : String :=
  "I'm functioning correctly, but this test response was filtered."

/-- The guard `response.candidates and response.candidates[0].content and
response.candidates[0].content.parts` followed by
`response.candidates[0].content.parts[0].text` (lines 97-98 and 175-176):
`some` of the first part's text when every link of the truthiness chain
holds, `none` otherwise. -/
def first_part_text? (resp : ProviderResponse) : Option String :=
  match resp.candidates with
  | [] => none
  | c :: _ =>
    match c.content with
    | none => none
    | some content =>
      match content.parts with
      | [] => none
      | p :: _ => some p.text

/-- The body of the inner `try` (lines 82-118): call the provider, raise
`HTTPException(500, ...)` on zero candidates, extract the text (or
substitute `safety_apology`), and compute `is_filtered` from
`finish_reason == 2`. -/
def inner_try (provider : ProviderOutcome) : Except PyExc ChatBody :=
  match provider with
  | .exn m => .error (.other m)
  | .ok resp =>
    if resp.candidates.isEmpty then
      .error (.http 500 "No response generated from Gemini")
    else
      let text_response := (first_part_text? resp).getD safety_apology
      let is_filtered :=
        match resp.candidates with
        | c :: _ => c.finish_reason == 2
        | [] => false
      .ok { response := text_response, model := MODEL_NAME,
            filtered := some is_filtered, error := none }

/-- The inner `try`/`except Exception as model_error` (lines 82-127): any
exception from the provider block is converted to a 200 body carrying
`inner_apology` and `error = str(model_error)`. -/
def inner_guarded (provider : ProviderOutcome) : ChatBody :=
  match inner_try provider with
  | .ok body => body
  | .error e =>
    { response := inner_apology, model := MODEL_NAME,
      filtered := none, error := some e.str }

/-- The body of the outer `try` (lines 69-127): parse the request, raise
`HTTPException(400, ...)` on a blank message and `HTTPException(500, ...)`
on a missing key, then run the guarded provider block.  The `Bool` records
whether the provider block was reached. -/
def outer_try (apiKeyConfigured : Bool) (req : RequestBody)
    (provider : ProviderOutcome) : Except PyExc (ChatBody × Bool) :=
  match req with
  | .malformed m => .error (.other m)
  | .ok message =>
    if is_blank message then
      .error (.http 400 "Message cannot be empty")
    else if !apiKeyConfigured then
      .error (.http 500 "Gemini API key not configured")
    else
      .ok (inner_guarded provider, true)

/-- `chat_endpoint` (lines 66-136).  The outer `except Exception as e`
catches every exception that reaches it — including the `HTTPException`s
raised at lines 75 and 78, since `HTTPException` subclasses `Exception` —
and returns a plain dict, which FastAPI serves with status 200.  No path
lets an `HTTPException` escape the handler, so the status is 200 on every
path. -/
def chat_endpoint (apiKeyConfigured : Bool) (req : RequestBody)
    (provider : ProviderOutcome) : ChatResult :=
  match outer_try apiKeyConfigured req provider with
  | .ok (body, invoked) => { status := 200, body := body, providerInvoked := invoked }
  | .error e =>
    { status := 200,
      body := { response := outer_apology, model := MODEL_NAME,
                filtered := none, error := some e.str },
      providerInvoked := false }

/-- The `/health` body (lines 147-151). -/
structure HealthBody where
  status : String
  model_loaded : Bool
  model_info : Option (String × String)
  deriving DecidableEq

/-- `health_check` (lines 138-151): reads only the ambient
`GEMINI_API_KEY`; it takes no provider and makes no provider call. -/
def health_check (apiKeyConfigured : Bool) : HealthBody :=
  let model_loaded := apiKeyConfigured
  let model_info := if model_loaded then some (MODEL_NAME, "text") else none
  { status := "healthy", model_loaded := model_loaded, model_info := model_info }

/-- The `/test` body (lines 156-190): `success` always present, the other
fields only on the paths that set them. -/
structure TestBody where
  success : Bool
  model : Option String
  response : Option String
  error : Option String
  deriving DecidableEq

/-- `test_endpoint` (lines 153-190): missing key short-circuits to
`success = false`; otherwise the provider is called with the fixed test
prompt, the text is extracted by the same truthiness chain as `/chat`
(falling back to `test_fallback`; note no zero-candidates raise here), and
any exception yields `success = false` with `error = str(e)`. -/
def test_endpoint (apiKeyConfigured : Bool) (provider : ProviderOutcome) : TestBody :=
  if !apiKeyConfigured then
    { success := false, model := none, response := none,
      error := some "Gemini API key not configured" }
  else
    match provider with
    | .exn m =>
      { success := false, model := none, response := none, error := some m }
    | .ok resp =>
      let text_response := (first_part_text? resp).getD test_fallback
      { success := true, model := some MODEL_NAME,
        response := some text_response, error := none }

/-- Helper: the body produced by the guarded provider block always carries
the fixed model name. -/
theorem inner_guarded_model (p : ProviderOutcome) :
    (inner_guarded p).model = MODEL_NAME := by
  unfold inner_guarded inner_try
  cases p with
  | exn m => rfl
  | ok resp =>
    cases h : resp.candidates.isEmpty <;> simp [h]

/-- Helper: the guarded provider block always sets exactly one of
`filtered` and `error`. -/
theorem inner_guarded_fields (p : ProviderOutcome) :
    ((inner_guarded p).filtered.isSome ∧ (inner_guarded p).error = none) ∨
    ((inner_guarded p).error.isSome ∧ (inner_guarded p).filtered = none) := by
  unfold inner_guarded inner_try
  cases p with
  | exn m => right; exact ⟨rfl, rfl⟩
  | ok resp =>
    cases h : resp.candidates.isEmpty
    · left; simp [h]
    · right; simp [h]

/-- C1: the claim says a blank (whitespace-only) `message` yields HTTP 400.
In the code the `HTTPException(400, "Message cannot be empty")` raised at
line 75 is caught by the outer `except Exception` at line 129 (it is an
`Exception` subclass), so the handler actually returns HTTP 200 with the
outer apology body and `error = "400: Message cannot be empty"`.  The
provider is indeed never invoked. -/
theorem c1_blank_message_gives_200_not_400 :
    chat_endpoint true (.ok "   ")
        (.ok ⟨[⟨some ⟨[⟨"unused"⟩]⟩, 1⟩]⟩) =
      { status := 200,
        body := { response := outer_apology, model := MODEL_NAME,
                  filtered := none,
                  error := some "400: Message cannot be empty" },
        providerInvoked := false } := by
  rfl

/-- C2: the claim says a missing credential yields HTTP 500.  The
`HTTPException(500, "Gemini API key not configured")` raised at line 78 is
caught by the outer `except Exception` at line 129, so the handler
actually returns HTTP 200 with the outer apology body and
`error = "500: Gemini API key not configured"`. -/
theorem c2_no_credential_gives_200_not_500 :
    chat_endpoint false (.ok "hello")
        (.ok ⟨[⟨some ⟨[⟨"unused"⟩]⟩, 1⟩]⟩) =
      { status := 200,
        body := { response := outer_apology, model := MODEL_NAME,
                  filtered := none,
                  error := some "500: Gemini API key not configured" },
        providerInvoked := false } := by
  rfl

/-- C3 counterexample: with zero candidates the claim fails — the body
does carry an `error` key and the response is not the step-5 apology
(line 94 raises `HTTPException(500, ...)`, which the inner
`except Exception` converts into the upstream-error shape). -/
theorem c3_zero_candidates_claim_fails :
    ¬ ((chat_endpoint true (.ok "hi") (.ok ⟨[]⟩)).body.error = none ∧
       (chat_endpoint true (.ok "hi") (.ok ⟨[]⟩)).body.response = safety_apology) := by
  decide

/-- C3 (amended): for every non-blank message with a credential, a
provider returning zero candidates yields status 200 with the inner
apology and `error = "500: No response generated from Gemini"` — the
outcome is treated exactly like an upstream error. -/
theorem c3_zero_candidates_treated_as_upstream_error
    (message : String) (h : is_blank message = false) :
    chat_endpoint true (.ok message) (.ok ⟨[]⟩) =
      { status := 200,
        body := { response := inner_apology, model := MODEL_NAME,
                  filtered := none,
                  error := some "500: No response generated from Gemini" },
        providerInvoked := true } := by
  unfold chat_endpoint outer_try
  simp [h]
  rfl

/-- C3 witness: the amended statement at the concrete message "hi". -/
theorem c3_zero_candidates_witness :
    chat_endpoint true (.ok "hi") (.ok ⟨[]⟩) =
      { status := 200,
        body := { response := inner_apology, model := MODEL_NAME,
                  filtered := none,
                  error := some "500: No response generated from Gemini" },
        providerInvoked := true } :=
  c3_zero_candidates_treated_as_upstream_error "hi" (by decide)

/-- C4: non-blank message, credential configured, provider returns a first
candidate with text parts and a non-safety finish reason — the handler
returns 200 with the first part's text, `filtered = false` and no `error`
key. -/
theorem c4_normal_candidate_success
    (message : String) (h : is_blank message = false)
    (p : Part) (ps : List Part) (fr : Nat) (hfr : fr ≠ 2)
    (rest : List Candidate) :
    chat_endpoint true (.ok message) (.ok ⟨⟨some ⟨p :: ps⟩, fr⟩ :: rest⟩) =
      { status := 200,
        body := { response := p.text, model := MODEL_NAME,
                  filtered := some false, error := none },
        providerInvoked := true } := by
  have hb : (fr == 2) = false := beq_eq_false_iff_ne.mpr hfr
  unfold chat_endpoint outer_try inner_guarded inner_try first_part_text?
  simp [h, hb]

/-- C4 witness: the success path at a concrete request. -/
theorem c4_normal_candidate_success_witness :
    chat_endpoint true (.ok "tell me a joke")
        (.ok ⟨[⟨some ⟨[⟨"Here is a joke."⟩]⟩, 1⟩]⟩) =
      { status := 200,
        body := { response := "Here is a joke.", model := MODEL_NAME,
                  filtered := some false, error := none },
        providerInvoked := true } :=
  c4_normal_candidate_success "tell me a joke" (by decide)
    ⟨"Here is a joke."⟩ [] 1 (by decide) []

/-- C5: the `filtered` flag and the apology substitution are independent.
First: a candidate with text parts whose finish reason is the safety
sentinel (2) yields `filtered = true` with the text preserved.  Second: a
candidate with no usable content parts and a non-safety finish reason
yields the substituted apology with `filtered = false`. -/
theorem c5_filtered_and_substitution_independent :
    (∀ (message : String), is_blank message = false →
      ∀ (p : Part) (ps : List Part) (rest : List Candidate),
        (chat_endpoint true (.ok message)
            (.ok ⟨⟨some ⟨p :: ps⟩, 2⟩ :: rest⟩)).body.filtered = some true ∧
        (chat_endpoint true (.ok message)
            (.ok ⟨⟨some ⟨p :: ps⟩, 2⟩ :: rest⟩)).body.response = p.text) ∧
    (∀ (message : String), is_blank message = false →
      ∀ (c : Candidate) (rest : List Candidate),
        first_part_text? ⟨c :: rest⟩ = none → c.finish_reason ≠ 2 →
        (chat_endpoint true (.ok message) (.ok ⟨c :: rest⟩)).body.response
            = safety_apology ∧
        (chat_endpoint true (.ok message) (.ok ⟨c :: rest⟩)).body.filtered
            = some false) := by
  constructor
  · intro message h p ps rest
    unfold chat_endpoint outer_try inner_guarded inner_try first_part_text?
    simp [h]
  · intro message h c rest hnone hfr
    have hb : (c.finish_reason == 2) = false := beq_eq_false_iff_ne.mpr hfr
    unfold chat_endpoint outer_try inner_guarded inner_try
    simp [h, hnone, hb]

/-- C5 witness: both halves at concrete provider results. -/
theorem c5_independence_witness :
    ((chat_endpoint true (.ok "q1")
        (.ok ⟨[⟨some ⟨[⟨"flagged text"⟩]⟩, 2⟩]⟩)).body.filtered = some true ∧
     (chat_endpoint true (.ok "q1")
        (.ok ⟨[⟨some ⟨[⟨"flagged text"⟩]⟩, 2⟩]⟩)).body.response = "flagged text") ∧
    ((chat_endpoint true (.ok "q2")
        (.ok ⟨[⟨none, 1⟩]⟩)).body.response = safety_apology ∧
     (chat_endpoint true (.ok "q2")
        (.ok ⟨[⟨none, 1⟩]⟩)).body.filtered = some false) :=
  ⟨c5_filtered_and_substitution_independent.1 "q1" (by decide)
      ⟨"flagged text"⟩ [] [],
   c5_filtered_and_substitution_independent.2 "q2" (by decide)
      ⟨none, 1⟩ [] rfl (by decide)⟩

/-- C6: a provider exception is caught by the inner handler and turned
into a 200 body with the inner apology and `error = str(exception)`; the
status is 200, never 500. -/
theorem c6_provider_exception_absorbed
    (message : String) (h : is_blank message = false) (m : String) :
    chat_endpoint true (.ok message) (.exn m) =
      { status := 200,
        body := { response := inner_apology, model := MODEL_NAME,
                  filtered := none, error := some m },
        providerInvoked := true } := by
  unfold chat_endpoint outer_try
  simp [h]
  rfl

/-- C6 witness: a concrete quota-style exception. -/
theorem c6_provider_exception_witness :
    chat_endpoint true (.ok "hello there") (.exn "429 Resource has been exhausted") =
      { status := 200,
        body := { response := inner_apology, model := MODEL_NAME,
                  filtered := none,
                  error := some "429 Resource has been exhausted" },
        providerInvoked := true } :=
  c6_provider_exception_absorbed "hello there" (by decide)
    "429 Resource has been exhausted"

/-- C7: `/health` reports `status = "healthy"`, `model_loaded` true iff a
credential is present, and `model_info = (MODEL_NAME, "text")` exactly
when loaded, `null` otherwise.  `health_check` takes no provider at all,
so no provider call is made. -/
theorem c7_health_check_contract (apiKeyConfigured : Bool) :
    (health_check apiKeyConfigured).status = "healthy" ∧
    ((health_check apiKeyConfigured).model_loaded = true ↔ apiKeyConfigured = true) ∧
    ((health_check apiKeyConfigured).model_loaded = true →
      (health_check apiKeyConfigured).model_info = some (MODEL_NAME, "text")) ∧
    ((health_check apiKeyConfigured).model_loaded = false →
      (health_check apiKeyConfigured).model_info = none) := by
  cases apiKeyConfigured <;> simp [health_check]

/-- C7 witness: both configurations instantiated concretely. -/
theorem c7_health_check_witness :
    (health_check true).status = "healthy" ∧
    (health_check true).model_info = some (MODEL_NAME, "text") ∧
    (health_check false).model_info = none :=
  ⟨(c7_health_check_contract true).1,
   (c7_health_check_contract true).2.2.1 (by decide),
   (c7_health_check_contract false).2.2.2 (by decide)⟩

/-- C8: `/test` with a credential: a first candidate with text parts gives
`{success := true, model, response = text}`; a throwing provider gives
`{success := false, error = str(e)}`. -/
theorem c8_test_endpoint_contract :
    (∀ (p : Part) (ps : List Part) (fr : Nat) (rest : List Candidate),
      test_endpoint true (.ok ⟨⟨some ⟨p :: ps⟩, fr⟩ :: rest⟩) =
        { success := true, model := some MODEL_NAME,
          response := some p.text, error := none }) ∧
    (∀ (m : String),
      test_endpoint true (.exn m) =
        { success := false, model := none, response := none,
          error := some m }) := by
  exact ⟨fun p ps fr rest => rfl, fun m => rfl⟩

/-- C9: every body returned by the `/chat` handler, on every path, carries
the fixed model name (the `response` field is a string on every path by
the shape of `ChatBody`). -/
theorem c9_chat_body_model_always_fixed
    (a : Bool) (r : RequestBody) (p : ProviderOutcome) :
    (chat_endpoint a r p).body.model = MODEL_NAME := by
  unfold chat_endpoint outer_try
  cases r with
  | malformed m => rfl
  | ok message =>
    cases hb : is_blank message with
    | true => simp [hb]
    | false =>
      cases a with
      | false => simp [hb]
      | true => simpa [hb] using inner_guarded_model p

/-- C10: in every `/chat` body exactly one of `filtered` and `error` is
present; the provider-success path (credential set, non-blank message,
provider returned at least one candidate) always carries `filtered` and
no `error`; the inner-exception and outer-exception paths always carry
`error` and no `filtered`. -/
theorem c10_filtered_error_mutually_exclusive :
    (∀ (a : Bool) (r : RequestBody) (p : ProviderOutcome),
      ((chat_endpoint a r p).body.filtered.isSome ∧
        (chat_endpoint a r p).body.error = none) ∨
      ((chat_endpoint a r p).body.error.isSome ∧
        (chat_endpoint a r p).body.filtered = none)) ∧
    (∀ (message : String), is_blank message = false →
      ∀ (resp : ProviderResponse), resp.candidates ≠ [] →
        (chat_endpoint true (.ok message) (.ok resp)).body.filtered.isSome ∧
        (chat_endpoint true (.ok message) (.ok resp)).body.error = none) ∧
    (∀ (message : String), is_blank message = false → ∀ (m : String),
      (chat_endpoint true (.ok message) (.exn m)).body.error.isSome ∧
      (chat_endpoint true (.ok message) (.exn m)).body.filtered = none) ∧
    (∀ (a : Bool) (p : ProviderOutcome) (m : String),
      (chat_endpoint a (.malformed m) p).body.error.isSome ∧
      (chat_endpoint a (.malformed m) p).body.filtered = none) := by
  refine ⟨?_, ?_, ?_, ?_⟩
  · intro a r p
    unfold chat_endpoint outer_try
    cases r with
    | malformed m => right; exact ⟨rfl, rfl⟩
    | ok message =>
      cases hb : is_blank message with
      | true => right; simp [hb]
      | false =>
        cases a with
        | false => right; simp [hb]
        | true => simpa [hb] using inner_guarded_fields p
  · intro message h resp hne
    have he : resp.candidates.isEmpty = false := by
      cases hc : resp.candidates with
      | nil => exact absurd hc hne
      | cons c cs => rfl
    unfold chat_endpoint outer_try inner_guarded inner_try
    simp [h, he]
  · intro message h m
    unfold chat_endpoint outer_try inner_guarded inner_try
    simp [h]
  · intro a p m
    exact ⟨rfl, rfl⟩

/-- C10 witness: the success path carries `filtered` and no `error` at a
concrete request. -/
theorem c10_exclusivity_witness :
    (chat_endpoint true (.ok "w10")
        (.ok ⟨[⟨some ⟨[⟨"t"⟩]⟩, 1⟩]⟩)).body.filtered.isSome ∧
    (chat_endpoint true (.ok "w10")
        (.ok ⟨[⟨some ⟨[⟨"t"⟩]⟩, 1⟩]⟩)).body.error = none :=
  c10_filtered_error_mutually_exclusive.2.1 "w10" (by decide)
    ⟨[⟨some ⟨[⟨"t"⟩]⟩, 1⟩]⟩ (by decide)

end GeminiServer
